import Mathlib

/-!
# Shallow embedding of the ZMQ chat client (`client.py`, `private_chat.py`)

This file embeds the client-side synchronization engine of the chat client:
the envelope model, the state owned by `ChatClient` (`groups`,
`joined_groups`, `private_windows`, the tab widget's tab texts and current
index, and the `member_list` attribute), the incoming-envelope handler
`handle_incoming_message`, the private-chat helpers, the receiver thread's
loop body, and `closeEvent`.

Python dicts are modelled as association lists (in insertion order), Python
sets as duplicate-free lists in insertion order (`pySetAdd` only appends an
absent element, `pySetDiscard` removes every occurrence), and Python
exceptions as an `Option PyError` carried alongside the state reached at
the moment the exception is raised (mutations made before the raise persist,
as they do on the Python objects).
-/

namespace ChatZmq

/-- Python exceptions that the client code can raise while handling input. -/
inductive PyError where
  /-- `TypeError`, e.g. from `group in None` when `get_all_group_names`
      returns `None`. -/
  | typeError
  /-- `AttributeError`, e.g. from calling `.addItem` on `self.member_list`,
      which is a plain Python `list` (set to `[]` in `__init__`). -/
  | attributeError
  /-- `KeyError` from `msg["field"]` on a dict lacking the key. -/
  | keyError (field : String)
deriving DecidableEq, Repr

/-- The value of a `"groups"` entry in an inbound envelope: the code checks
    `isinstance(groups_data, dict)`, so a non-dict value is possible. -/
inductive GroupsField where
  | dict (entries : List (String × List String))
  | nondict
deriving DecidableEq, Repr

/-- An inbound JSON envelope, as the dict produced by `json.loads`.
    `none` models an absent key. -/
structure Msg where
  type : Option String := none
  «to» : Option String := none
  groups : Option GroupsField := none
  data : Option String := none
  «from» : Option String := none
  group : Option String := none
deriving DecidableEq, Repr

/-- An outbound JSON envelope, as built by `send_command`,
    `send_group_message` and `send_private_message`. -/
structure OutMsg where
  type : String
  «from» : String
  action : Option String := none
  group : Option String := none
  «to» : Option String := none
  data : Option String := none
deriving DecidableEq, Repr

/-- A `PrivateChatWindow` (private_chat.py): the two identities and the
    lines appended to its `chat_display`. -/
structure PCWindow where
  local_user : String
  target_user : String
  chat_display : List String
deriving DecidableEq, Repr

/-- Externally observable side effects of the client code. -/
inductive Effect where
  /-- `self.pub.send_string(json.dumps(msg))`. -/
  | sendFrame (m : OutMsg)
  /-- `QMessageBox.information(...)`. -/
  | showInfo (text : String)
  /-- `win.show()` for a new private chat window. -/
  | showWindow (peer : String)
  /-- `self.private_windows[target].activateWindow()`. -/
  | activateWindow (peer : String)
  /-- `tab.append(line)` on a group chat tab. -/
  | appendTab (group : String) (line : String)
  /-- `self.receiver.stop()` (closes the SUB socket, terminates its context). -/
  | stopReceiver
  /-- `self.pub.close()`. -/
  | closePubSocket
  /-- `self.context.term()`. -/
  | termZmqContext
  /-- `event.accept()` in `closeEvent`. -/
  | acceptClose
deriving DecidableEq, Repr

/-! ## Python `set` operations on the list model -/

/-- `s.add(x)` on a Python set modelled as an insertion-ordered list. -/
def pySetAdd (l : List String) (x : String) : List String :=
  if l.contains x then l else l ++ [x]

/-- `s.discard(x)`: removes `x` if present, never raises. -/
def pySetDiscard (l : List String) (x : String) : List String :=
  l.filter (fun y => y ≠ x)

/-- `set(members)` built from a JSON array, in first-occurrence order. -/
def pySetOf (l : List String) : List String :=
  l.foldl (fun acc x => pySetAdd acc x) []

/-- The mutable state of a `ChatClient` instance. -/
structure ClientState where
  /-- `self.username`. -/
  username : String
  /-- `self.groups : dict[str, set[str]]`, in dict insertion order. -/
  groups : List (String × List String)
  /-- `self.joined_groups : set[str]`. -/
  joined_groups : List String
  /-- `self.private_windows : dict[str, PrivateChatWindow]`. -/
  private_windows : List (String × PCWindow)
  /-- The tab texts of `self.group_tabs`, in tab order. -/
  tabs : List String
  /-- `self.group_tabs.currentIndex()` (−1 when no tab is current). -/
  currentIndex : Int
  /-- `self.member_list`, the plain Python list set in `__init__`. -/
  member_list : List String
deriving DecidableEq, Repr

/-- State after `__init__` and `init_ui`: empty group/joined/session state,
    the placeholder tab "No Groups" selected. -/
def initialState (u : String) : ClientState :=
  { username := u, groups := [], joined_groups := [], private_windows := [],
    tabs := ["No Groups"], currentIndex := 0, member_list := [] }

/-- Result of running a handler: the state at return (or at the point an
    exception escaped), the emitted effects, and the escaped exception. -/
structure HResult where
  state : ClientState
  effects : List Effect
  error : Option PyError
deriving DecidableEq, Repr

/-! ## String helpers mirroring Python's `str` operations -/

/-- Whitespace characters recognized by Python's `str.split()`. -/
def isWs (c : Char) : Bool :=
  c == ' ' || c == '\t' || c == '\n' || c == '\r' || c == '\x0b' || c == '\x0c'

/-- Helper for `pyWords`: `acc` is the current word, reversed. -/
def wordsAux : List Char → List Char → List String
  | [], acc => if acc.isEmpty then [] else [String.mk acc.reverse]
  | c :: cs, acc =>
    if isWs c then
      if acc.isEmpty then wordsAux cs []
      else String.mk acc.reverse :: wordsAux cs []
    else wordsAux cs (c :: acc)

/-- Python's `data.split()`: split on whitespace runs, dropping empties. -/
def pyWords (s : String) : List String := wordsAux s.toList []

/-- `needle` occurs as a contiguous run at the head of `hay`. -/
def headRun : List Char → List Char → Bool
  | [], _ => true
  | _ :: _, [] => false
  | a :: as, b :: bs => a == b && headRun as bs

/-- `needle` occurs as a contiguous run somewhere in `hay`. -/
def containsRun (needle : List Char) : List Char → Bool
  | [] => headRun needle []
  | c :: cs => headRun needle (c :: cs) || containsRun needle cs

/-- Python's `needle in hay` on strings. -/
def strContains (hay needle : String) : Bool := containsRun needle.toList hay.toList

/-- Python's `s.rstrip(".")`. -/
def rstripDot (s : String) : String :=
  String.mk (((s.toList).reverse.dropWhile (fun c => c == '.')).reverse)

/-- Python's `s.strip()`. -/
def pyStrip (s : String) : String :=
  String.mk ((((s.toList).dropWhile isWs).reverse.dropWhile isWs).reverse)

/-- Lexicographic code-point order on strings, as Python compares `str`. -/
def strLtB : List Char → List Char → Bool
  | [], [] => false
  | [], _ :: _ => true
  | _ :: _, [] => false
  | a :: as, b :: bs =>
    if a.toNat < b.toNat then true
    else if b.toNat < a.toNat then false
    else strLtB as bs

/-- Insert into a sorted list (ascending, Python `sorted` order). -/
def insertSorted (x : String) : List String → List String
  | [] => [x]
  | y :: ys => if strLtB x.toList y.toList then x :: y :: ys else y :: insertSorted x ys

/-- Python's `sorted` on a list of strings. -/
def pySorted : List String → List String
  | [] => []
  | x :: xs => insertSorted x (pySorted xs)

/-! ## Dict helpers -/

/-- The keys of an association list (Python `dict` key view, in order). -/
def keysOf {α : Type} (l : List (String × α)) : List String := l.map Prod.fst

/-- `d.get(g)` / `d[g]` on an association-list dict. -/
def lookupG {α : Type} (l : List (String × α)) (g : String) : Option α :=
  (l.find? (fun p => p.1 == g)).map Prod.snd

/-- `self.groups[group].add(user)` (no-op on groups other than `group`). -/
def addMember (l : List (String × List String)) (g u : String) :
    List (String × List String) :=
  l.map (fun p => if p.1 = g then (p.1, pySetAdd p.2 u) else p)

/-- `self.groups[group].discard(user)`. -/
def removeMember (l : List (String × List String)) (g u : String) :
    List (String × List String) :=
  l.map (fun p => if p.1 = g then (p.1, pySetDiscard p.2 u) else p)

/-- `self.private_windows[k] = f(self.private_windows[k])`: update the
    window stored under key `k` in place. -/
def updateWindow (l : List (String × PCWindow)) (k : String) (f : PCWindow → PCWindow) :
    List (String × PCWindow) :=
  l.map (fun p => if p.1 = k then (p.1, f p.2) else p)

/-! ## Command emission -/

/-- `send_command(action, group)`: build and publish a command envelope. -/
def send_command (username action group : String) : Effect :=
  .sendFrame { type := "command", «from» := username,
               action := some action, group := some group }

/-- `send_private_message(from_user, to_user, message)`. -/
def send_private_message (from_user to_user message : String) : Effect :=
  .sendFrame { type := "message", «from» := from_user,
               «to» := some to_user, data := some message }

/-! ## UI helpers used by the handler -/

/-- `self.group_tabs.tabText(i)`: the tab text at index `i` ("" out of range). -/
def tabTextAt (tabs : List String) (i : Int) : String :=
  if 0 ≤ i then tabs.getD i.toNat "" else ""

/-- `update_member_list(group_name)`: clears `self.member_list` and then,
    if the group exists, calls `self.member_list.addItem(member)` for each
    sorted member — but `self.member_list` is a plain Python list, so the
    first `addItem` call raises `AttributeError`. -/
def update_member_list (s : ClientState) (group_name : String) :
    ClientState × Option PyError :=
  let s' := { s with member_list := ([] : List String) }
  match lookupG s.groups group_name with
  | some mems => if mems = [] then (s', none) else (s', some .attributeError)
  | none => (s', none)

/-- The tab texts after `update_group_list` rebuilds the tab widget:
    the sorted group names, or the "No Groups" placeholder. -/
def newTabs (group_names : List String) : List String :=
  if group_names = [] then ["No Groups"] else pySorted group_names

/-- The current index after the rebuild: the captured previous index when
    still in range (`setCurrentIndex`), else 0 (the first tab added). -/
def restoreIdx (old : Int) (tabs : List String) : Int :=
  if 0 ≤ old ∧ old < (tabs.length : Int) then old else 0

/-- `update_group_list(group_names)`: rebuild the tab widget (sorted group
    names, or the "No Groups" placeholder), restore the previous current
    index when still in range, then refresh the member list for the current
    tab. -/
def update_group_list (s : ClientState) (group_names : List String) :
    ClientState × Option PyError :=
  if tabTextAt (newTabs group_names) (restoreIdx s.currentIndex (newTabs group_names)) ≠ "No Groups" then
    update_member_list
      { s with tabs := newTabs group_names,
               currentIndex := restoreIdx s.currentIndex (newTabs group_names) }
      (tabTextAt (newTabs group_names) (restoreIdx s.currentIndex (newTabs group_names)))
  else
    ({ s with tabs := newTabs group_names,
              currentIndex := restoreIdx s.currentIndex (newTabs group_names),
              member_list := [] }, none)

/-- Lines 300–305 of `handle_incoming_message`: refresh the member list if
    the current tab shows the group named by the lifecycle event. -/
def memberListRefresh (s : ClientState) (group : String) :
    ClientState × Option PyError :=
  if 0 ≤ s.currentIndex then
    if tabTextAt s.tabs s.currentIndex = group then update_member_list s group
    else (s, none)
  else (s, none)

/-! ## The stubbed lookup helpers (client.py lines 364–368) -/

/-- `get_all_group_names` in client.py has body `pass`: it returns `None`. -/
def get_all_group_names (_s : ClientState) : Option (List String) := none

/-- `find_tab_by_name` in client.py has body `pass`: it returns `None`. -/
def find_tab_by_name (_s : ClientState) (_name : String) : Option Unit := none

/-! ## `handle_incoming_message` -/

/-- `PrivateChatWindow.receive_message(sender, message)`. -/
def receive_message (w : PCWindow) (sender message : String) : PCWindow :=
  { w with chat_display := w.chat_display ++ [sender ++ ": " ++ message] }

/-- The snapshot branch into group→member-set form:
    `{g: set(members) for g, members in groups_data.items()}`. -/
def toGroups (entries : List (String × List String)) : List (String × List String) :=
  entries.map (fun p => (p.1, pySetOf p.2))

/-- Lines 292–295: add the actor to the group's member set; add the group
    to `joined_groups` when the actor is the local user. -/
def joinApply (s : ClientState) (user group : String) : ClientState :=
  if user = s.username then
    { s with groups := addMember s.groups group user,
             joined_groups := pySetAdd s.joined_groups group }
  else { s with groups := addMember s.groups group user }

/-- Lines 296–299: discard the actor from the group's member set; discard
    the group from `joined_groups` when the actor is the local user. -/
def leftApply (s : ClientState) (user group : String) : ClientState :=
  if user = s.username then
    { s with groups := removeMember s.groups group user,
             joined_groups := pySetDiscard s.joined_groups group }
  else { s with groups := removeMember s.groups group user }

/-- Lines 287–306: the `"joined"/"left"` free-text branch. The text is
    split on whitespace; the actor is token 0 and the group name is token 2
    with trailing dots stripped. If an `AttributeError` escapes the member
    list refresh, the closing `QMessageBox.information` is not reached. -/
def lifecycleStep (s : ClientState) (data : String) : HResult :=
  let parts := pyWords data
  if 3 ≤ parts.length then
    let user := parts.getD 0 ""
    let group := rstripDot (parts.getD 2 "")
    if (keysOf s.groups).contains group then
      let s1 :=
        if strContains data "joined" then joinApply s user group
        else leftApply s user group
      let r := memberListRefresh s1 group
      ⟨r.1, if r.2.isSome then [] else [.showInfo data], r.2⟩
    else ⟨s, [.showInfo data], none⟩
  else ⟨s, [.showInfo data], none⟩

/-- The `mtype == "event"` body of `handle_incoming_message`, after the
    targeted-recipient filter. -/
def handleEvent (s : ClientState) (msg : Msg) : HResult :=
  match msg.groups with
  | some (.dict entries) =>
    let gs := toGroups entries
    let s := { s with groups := gs }
    let r := update_group_list s (keysOf gs)
    ⟨r.1, [], r.2⟩
  | some .nondict => ⟨s, [], none⟩
  | none =>
    let data := (msg.data).getD ""
    if data = "" then ⟨s, [], none⟩
    else if strContains data "created" || strContains data "removed" then
      ⟨s, [send_command s.username "refresh" "", .showInfo data], none⟩
    else if strContains data "joined" || strContains data "left" then
      lifecycleStep s data
    else ⟨s, [], none⟩

/-- Lines 309–322, the private-message branch after `sender`/`content`
    are read: create and show a window when the sender has none, then
    deliver via `receive_message`. -/
def privateDeliver (s : ClientState) (sender content : String) :
    ClientState × List Effect :=
  if (keysOf s.private_windows).contains sender then
    ({ s with private_windows :=
        (updateWindow s.private_windows sender
          (fun w => receive_message w sender content)) }, [])
  else
    ({ s with private_windows :=
        (updateWindow (s.private_windows ++ [(sender, ⟨s.username, sender, []⟩)])
          sender (fun w => receive_message w sender content)) },
     [.showWindow sender])

/-- The `mtype == "message"` body of `handle_incoming_message`. -/
def handleMessage (s : ClientState) (msg : Msg) : HResult :=
  match msg.«to» with
  | some _ =>
    match msg.«from» with
    | none => ⟨s, [], some (.keyError "from")⟩
    | some sender =>
      match msg.data with
      | none => ⟨s, [], some (.keyError "data")⟩
      | some content =>
        ⟨(privateDeliver s sender content).1,
         (privateDeliver s sender content).2, none⟩
  | none =>
    let group := (msg.group).getD ""
    let sender := (msg.«from»).getD ""
    let content := (msg.data).getD ""
    match get_all_group_names s with
    | none => ⟨s, [], some .typeError⟩
    | some names =>
      if names.contains group then
        match find_tab_by_name s group with
        | some _ => ⟨s, [.appendTab group (sender ++ ": " ++ content)], none⟩
        | none => ⟨s, [], none⟩
      else ⟨s, [], none⟩

/-- `ChatClient.handle_incoming_message(msg)` (client.py lines 260–330). -/
def handle_incoming_message (s : ClientState) (msg : Msg) : HResult :=
  if msg.type = some "event" then
    match msg.«to» with
    | some dst => if dst ≠ s.username then ⟨s, [], none⟩ else handleEvent s msg
    | none => handleEvent s msg
  else if msg.type = some "message" then handleMessage s msg
  else ⟨s, [], none⟩

/-! ## Private chat initiation and sending -/

/-- `start_private_chat(item)` with `target = item.text()`. -/
def start_private_chat (s : ClientState) (target : String) :
    ClientState × List Effect :=
  if target = s.username then (s, [])
  else if (keysOf s.private_windows).contains target then
    (s, [.activateWindow target])
  else
    ({ s with private_windows :=
        s.private_windows ++ [(target, ⟨s.username, target, []⟩)] },
     [.showWindow target])

/-- `PrivateChatWindow.on_send` with `text` in the input box: if the
    stripped text is non-empty, emit the `send_message` signal and echo
    "You: msg" locally. Returns the updated window and the emitted
    `(local_user, target_user, msg)` triple, if any. -/
def on_send (w : PCWindow) (text : String) :
    PCWindow × Option (String × String × String) :=
  let msg := pyStrip text
  if msg = "" then (w, none)
  else ({ w with chat_display := w.chat_display ++ ["You: " ++ msg] },
        some (w.local_user, w.target_user, msg))

/-- The user presses Send in the private window for `peer`: `on_send` runs
    on that window and its `send_message` signal is connected to
    `ChatClient.send_private_message`. -/
def sendViaWindow (s : ClientState) (peer text : String) :
    ClientState × List Effect :=
  match lookupG s.private_windows peer with
  | none => (s, [])
  | some w =>
    let r := on_send w text
    ({ s with private_windows := updateWindow s.private_windows peer (fun _ => r.1) },
     match r.2 with
     | some t => [send_private_message t.1 t.2.1 t.2.2]
     | none => [])

/-! ## Shutdown (`closeEvent`) -/

/-- `closeEvent(event)`: send a leave command for every joined group, then
    stop the receiver, close the PUB socket, terminate the context and
    accept the close event. -/
def closeEvent (s : ClientState) : List Effect :=
  (s.joined_groups.map (fun g => send_command s.username "leave" g)) ++
    [.stopReceiver, .closePubSocket, .termZmqContext, .acceptClose]

/-! ## The receiver thread (`ZMQReceiverThread.run` / `.stop`) -/

/-- The outcome of one `self.sub.recv_string()` / `json.loads` attempt:
    a decoded envelope, a decode failure (`json.loads` raised), or a
    receive failure (the ZMQError raised once `stop` has closed the
    socket). -/
inductive RecvResult where
  | ok (m : Msg)
  | decodeError
  | recvError
deriving DecidableEq, Repr

/-- One iteration of the `while True` body of `ZMQReceiverThread.run`:
    the envelope emitted via `message_received` (if any), and whether the
    iteration exits the loop. Every exception — decode failures and the
    receive failure after `stop` alike — is caught by the blanket
    `except Exception`, printed, and the loop continues. -/
def pumpIter (r : RecvResult) : Option Msg × Bool :=
  match r with
  | .ok m => (some m, false)
  | .decodeError => (none, false)
  | .recvError => (none, false)

/-- The pump's behaviour over a finite trace of receive outcomes: the
    envelopes it emits, in order. -/
def pumpRun : List RecvResult → List Msg
  | [] => []
  | r :: rs =>
    match (pumpIter r).1 with
    | some m => m :: pumpRun rs
    | none => pumpRun rs

/-! ## Helper lemmas -/

theorem pySetAdd_contains (l : List String) (x : String) :
    (pySetAdd l x).contains x = true := by
  unfold pySetAdd
  by_cases h : x ∈ l <;> simp [h]

theorem pySetAdd_idem (l : List String) (x : String) :
    pySetAdd (pySetAdd l x) x = pySetAdd l x := by
  unfold pySetAdd
  by_cases h : x ∈ l <;> simp [h]

theorem pySetDiscard_of_not_contains (l : List String) (x : String)
    (h : l.contains x = false) : pySetDiscard l x = l := by
  have h' : x ∉ l := by simpa using h
  unfold pySetDiscard
  apply List.filter_eq_self.mpr
  intro a ha
  simp only [ne_eq, decide_eq_true_eq]
  intro hax
  exact h' (hax ▸ ha)

theorem update_member_list_state (s : ClientState) (g : String) :
    (update_member_list s g).1 = { s with member_list := [] } := by
  unfold update_member_list
  cases lookupG s.groups g with
  | none => rfl
  | some mems =>
    by_cases h : mems = []
    · simp [h]
    · simp [h]

theorem update_group_list_groups (s : ClientState) (n : List String) :
    ((update_group_list s n).1).groups = s.groups := by
  unfold update_group_list
  split
  · rw [update_member_list_state]
  · rfl

theorem update_group_list_joined (s : ClientState) (n : List String) :
    ((update_group_list s n).1).joined_groups = s.joined_groups := by
  unfold update_group_list
  split
  · rw [update_member_list_state]
  · rfl

theorem update_group_list_windows (s : ClientState) (n : List String) :
    ((update_group_list s n).1).private_windows = s.private_windows := by
  unfold update_group_list
  split
  · rw [update_member_list_state]
  · rfl

theorem update_group_list_username (s : ClientState) (n : List String) :
    ((update_group_list s n).1).username = s.username := by
  unfold update_group_list
  split
  · rw [update_member_list_state]
  · rfl

theorem memberListRefresh_groups (s : ClientState) (g : String) :
    ((memberListRefresh s g).1).groups = s.groups := by
  unfold memberListRefresh
  split_ifs
  · rw [update_member_list_state]
  · rfl
  · rfl

theorem memberListRefresh_joined (s : ClientState) (g : String) :
    ((memberListRefresh s g).1).joined_groups = s.joined_groups := by
  unfold memberListRefresh
  split_ifs
  · rw [update_member_list_state]
  · rfl
  · rfl

theorem memberListRefresh_windows (s : ClientState) (g : String) :
    ((memberListRefresh s g).1).private_windows = s.private_windows := by
  unfold memberListRefresh
  split_ifs
  · rw [update_member_list_state]
  · rfl
  · rfl

theorem memberListRefresh_username (s : ClientState) (g : String) :
    ((memberListRefresh s g).1).username = s.username := by
  unfold memberListRefresh
  split_ifs
  · rw [update_member_list_state]
  · rfl
  · rfl

theorem keysOf_mapUpdate {α : Type} (l : List (String × α)) (k : String) (f : α → α) :
    keysOf (l.map fun p => if p.1 = k then (p.1, f p.2) else p) = keysOf l := by
  unfold keysOf
  rw [List.map_map]
  apply List.map_congr_left
  intro p _
  by_cases h : p.1 = k <;> simp [h]

theorem keysOf_addMember (l : List (String × List String)) (g u : String) :
    keysOf (addMember l g u) = keysOf l :=
  keysOf_mapUpdate l g (fun ms => pySetAdd ms u)

theorem keysOf_removeMember (l : List (String × List String)) (g u : String) :
    keysOf (removeMember l g u) = keysOf l :=
  keysOf_mapUpdate l g (fun ms => pySetDiscard ms u)

theorem keysOf_updateWindow (l : List (String × PCWindow)) (k : String)
    (f : PCWindow → PCWindow) : keysOf (updateWindow l k f) = keysOf l :=
  keysOf_mapUpdate l k f

theorem addMember_addMember (l : List (String × List String)) (g u : String) :
    addMember (addMember l g u) g u = addMember l g u := by
  unfold addMember
  rw [List.map_map]
  apply List.map_congr_left
  intro p _
  by_cases h : p.1 = g <;> simp [Function.comp, h, pySetAdd_idem]

theorem removeMember_eq_self (l : List (String × List String)) (g u : String)
    (h : l.all (fun p => !(p.1 == g) || !(p.2.contains u)) = true) :
    removeMember l g u = l := by
  unfold removeMember
  have step : ∀ p ∈ l, (if p.1 = g then (p.1, pySetDiscard p.2 u) else p) = p := by
    intro p hp
    by_cases hk : p.1 = g
    · have hall := (List.all_eq_true.mp h) p hp
      simp only [hk, BEq.refl, Bool.not_true, Bool.false_or, Bool.not_eq_true'] at hall
      rw [if_pos hk, pySetDiscard_of_not_contains p.2 u hall]
    · simp [hk]
  rw [List.map_congr_left step]
  simp

theorem joinApply_groups (s : ClientState) (user group : String) :
    (joinApply s user group).groups = addMember s.groups group user := by
  unfold joinApply
  split <;> rfl

theorem joinApply_joined (s : ClientState) (user group : String) :
    (joinApply s user group).joined_groups =
      if user = s.username then pySetAdd s.joined_groups group
      else s.joined_groups := by
  unfold joinApply
  split <;> simp_all

theorem joinApply_username (s : ClientState) (user group : String) :
    (joinApply s user group).username = s.username := by
  unfold joinApply
  split <;> rfl

theorem joinApply_windows (s : ClientState) (user group : String) :
    (joinApply s user group).private_windows = s.private_windows := by
  unfold joinApply
  split <;> rfl

theorem leftApply_groups (s : ClientState) (user group : String) :
    (leftApply s user group).groups = removeMember s.groups group user := by
  unfold leftApply
  split <;> rfl

theorem leftApply_joined (s : ClientState) (user group : String) :
    (leftApply s user group).joined_groups =
      if user = s.username then pySetDiscard s.joined_groups group
      else s.joined_groups := by
  unfold leftApply
  split <;> simp_all

theorem leftApply_username (s : ClientState) (user group : String) :
    (leftApply s user group).username = s.username := by
  unfold leftApply
  split <;> rfl

theorem leftApply_windows (s : ClientState) (user group : String) :
    (leftApply s user group).private_windows = s.private_windows := by
  unfold leftApply
  split <;> rfl

/-! ## Message constructors used in the claim statements -/

/-- An untargeted lifecycle event envelope carrying free text. -/
def eventMsg (data : String) : Msg :=
  { type := some "event", data := some data }

/-- A snapshot event envelope carrying a full group→members mapping. -/
def snapshotMsg (entries : List (String × List String)) : Msg :=
  { type := some "event", groups := some (.dict entries) }

/-- An inbound private message envelope. -/
def privateMsg (dst sender text : String) : Msg :=
  { type := some "message", «to» := some dst, «from» := some sender,
    data := some text }

/-- An inbound group message envelope. -/
def groupMsg (group sender text : String) : Msg :=
  { type := some "message", group := some group, «from» := some sender,
    data := some text }

/-! ## Reduction lemmas for `handle_incoming_message` -/

theorem handle_eventMsg (s : ClientState) (data : String)
    (hne : data ≠ "")
    (hcr : strContains data "created" = false)
    (hrm : strContains data "removed" = false)
    (hjl : (strContains data "joined" || strContains data "left") = true) :
    handle_incoming_message s (eventMsg data) = lifecycleStep s data := by
  simp [handle_incoming_message, eventMsg, handleEvent, hne, hcr, hrm, hjl]

theorem handle_snapshotMsg (s : ClientState) (entries : List (String × List String)) :
    handle_incoming_message s (snapshotMsg entries) =
      ⟨(update_group_list { s with groups := toGroups entries }
          (keysOf (toGroups entries))).1, [],
       (update_group_list { s with groups := toGroups entries }
          (keysOf (toGroups entries))).2⟩ := by
  simp [handle_incoming_message, snapshotMsg, handleEvent]

theorem lifecycleStep_short (s : ClientState) (data : String)
    (h : ¬ 3 ≤ (pyWords data).length) :
    lifecycleStep s data = ⟨s, [.showInfo data], none⟩ := by
  simp [lifecycleStep, h]

theorem lifecycleStep_unknown (s : ClientState) (data group : String)
    (hg : rstripDot ((pyWords data).getD 2 "") = group)
    (h3 : 3 ≤ (pyWords data).length)
    (hk : (keysOf s.groups).contains group = false) :
    lifecycleStep s data = ⟨s, [.showInfo data], none⟩ := by
  simp only [lifecycleStep]
  rw [hg, if_pos h3, hk]
  rw [if_neg (show ¬(false = true) by simp)]

theorem lifecycleStep_state_known (s : ClientState) (data user group : String)
    (hu : (pyWords data).getD 0 "" = user)
    (hg : rstripDot ((pyWords data).getD 2 "") = group)
    (h3 : 3 ≤ (pyWords data).length)
    (hk : (keysOf s.groups).contains group = true) :
    (lifecycleStep s data).state =
      (memberListRefresh
        (if strContains data "joined" then joinApply s user group
         else leftApply s user group) group).1 := by
  simp only [lifecycleStep]
  rw [hu, hg, if_pos h3, hk]
  rw [if_pos (show true = true from rfl)]

theorem lifecycleStep_windows (s : ClientState) (data : String) :
    (lifecycleStep s data).state.private_windows = s.private_windows := by
  simp only [lifecycleStep]
  split
  · split
    · rw [memberListRefresh_windows]
      split
      · rw [joinApply_windows]
      · rw [leftApply_windows]
    · rfl
  · rfl

theorem handleEvent_windows (s : ClientState) (msg : Msg) :
    (handleEvent s msg).state.private_windows = s.private_windows := by
  rcases hm : msg.groups with _ | gf
  · simp only [handleEvent, hm]
    split_ifs
    · rfl
    · rfl
    · exact lifecycleStep_windows s _
    · rfl
  · cases gf
    · simp only [handleEvent, hm]
      rw [update_group_list_windows]
    · simp [handleEvent, hm]

theorem privateDeliver_nodup (s : ClientState) (sender content : String)
    (h : (keysOf s.private_windows).Nodup) :
    (keysOf (privateDeliver s sender content).1.private_windows).Nodup := by
  unfold privateDeliver
  split
  · rw [keysOf_updateWindow]
    exact h
  · next hc =>
    have hns : sender ∉ keysOf s.private_windows := by simpa using hc
    rw [keysOf_updateWindow]
    unfold keysOf
    rw [List.map_append]
    exact List.Nodup.append h (List.nodup_singleton _)
      (List.disjoint_singleton.2 hns)

theorem handleMessage_nodup (s : ClientState) (msg : Msg)
    (h : (keysOf s.private_windows).Nodup) :
    (keysOf (handleMessage s msg).state.private_windows).Nodup := by
  rcases hto : msg.«to» with _ | dst
  · simp only [handleMessage, hto, get_all_group_names]
    exact h
  · rcases hfrom : msg.«from» with _ | sender
    · simp [handleMessage, hto, hfrom, h]
    · rcases hdata : msg.data with _ | content
      · simp [handleMessage, hto, hfrom, hdata, h]
      · simp only [handleMessage, hto, hfrom, hdata]
        exact privateDeliver_nodup s sender content h

theorem handle_nodup (s : ClientState) (msg : Msg)
    (h : (keysOf s.private_windows).Nodup) :
    (keysOf (handle_incoming_message s msg).state.private_windows).Nodup := by
  unfold handle_incoming_message
  by_cases ht : msg.type = some "event"
  · rw [if_pos ht]
    rcases hto : msg.«to» with _ | dst
    · simp only [hto]
      rw [handleEvent_windows]
      exact h
    · simp only [hto]
      by_cases hd : dst ≠ s.username
      · rw [if_pos hd]
        exact h
      · rw [if_neg hd]
        rw [handleEvent_windows]
        exact h
  · rw [if_neg ht]
    by_cases hm : msg.type = some "message"
    · rw [if_pos hm]
      exact handleMessage_nodup s msg h
    · rw [if_neg hm]
      exact h

theorem start_private_chat_nodup (s : ClientState) (t : String)
    (h : (keysOf s.private_windows).Nodup) :
    (keysOf (start_private_chat s t).1.private_windows).Nodup := by
  unfold start_private_chat
  split_ifs with h1 h2
  · exact h
  · exact h
  · have hns : t ∉ keysOf s.private_windows := by simpa using h2
    unfold keysOf
    rw [List.map_append]
    exact List.Nodup.append h (List.nodup_singleton _)
      (List.disjoint_singleton.2 hns)

/-! ## Claim theorems -/

/-- C1: the spec's end-to-end scenario fails on the code. Starting from the
    empty "alice" state, applying the snapshot event `{"dev": []}` and then
    the lifecycle event `"alice joined group dev."` leaves
    GroupSnapshot = `{"dev": {}}` and JoinedSet = `{}` — not
    `{"dev": {"alice"}}` / `{"dev"}` as the claim expects: the parser takes
    token 2 of the text (`"group"`), which is not a known group, so the
    join is silently dropped. -/
theorem c1_end_to_end_code_result :
    (handle_incoming_message
        (handle_incoming_message (initialState "alice")
           (snapshotMsg [("dev", [])])).state
        (eventMsg "alice joined group dev.")).state.groups = [("dev", [])] ∧
    (handle_incoming_message
        (handle_incoming_message (initialState "alice")
           (snapshotMsg [("dev", [])])).state
        (eventMsg "alice joined group dev.")).state.joined_groups = [] ∧
    (handle_incoming_message
        (handle_incoming_message (initialState "alice")
           (snapshotMsg [("dev", [])])).state
        (eventMsg "alice joined group dev.")).error = none := by
  decide

/-- C2 counterexample: with JoinedSet = {"A"}, applying a snapshot that
    omits "A" leaves JoinedSet = {"A"}, not ∅ — and "A" is no longer a key
    of GroupSnapshot, violating the claimed subset invariant. -/
theorem c2_stale_joined_counterexample :
    (handle_incoming_message
        { username := "alice", groups := [("A", [])], joined_groups := ["A"],
          private_windows := [], tabs := ["A"], currentIndex := 0,
          member_list := [] }
        (snapshotMsg [("B", [])])).state.joined_groups = ["A"] ∧
    ¬ ((handle_incoming_message
        { username := "alice", groups := [("A", [])], joined_groups := ["A"],
          private_windows := [], tabs := ["A"], currentIndex := 0,
          member_list := [] }
        (snapshotMsg [("B", [])])).state.joined_groups = []) ∧
    "A" ∈ (handle_incoming_message
        { username := "alice", groups := [("A", [])], joined_groups := ["A"],
          private_windows := [], tabs := ["A"], currentIndex := 0,
          member_list := [] }
        (snapshotMsg [("B", [])])).state.joined_groups ∧
    "A" ∉ keysOf (handle_incoming_message
        { username := "alice", groups := [("A", [])], joined_groups := ["A"],
          private_windows := [], tabs := ["A"], currentIndex := 0,
          member_list := [] }
        (snapshotMsg [("B", [])])).state.groups := by
  decide

/-- C2 amended: applying a snapshot event never touches JoinedSet — the
    handler replaces `groups` wholesale but performs no intersection, so a
    joined group omitted from the new snapshot stays in JoinedSet. -/
theorem c2_snapshot_leaves_joined_unchanged :
    ∀ (s : ClientState) (entries : List (String × List String)),
      (handle_incoming_message s (snapshotMsg entries)).state.joined_groups
        = s.joined_groups := by
  intro s entries
  rw [handle_snapshotMsg]
  exact update_group_list_joined _ _

/-- C3: the handler is not exception-free. On a plain well-formed group
    message it evaluates `group in self.get_all_group_names()` where
    `get_all_group_names` returns `None` (its body is `pass`), raising
    `TypeError` — before any state change or rendering. -/
theorem c3_group_message_raises :
    handle_incoming_message (initialState "alice") (groupMsg "dev" "bob" "hi")
      = ⟨initialState "alice", [], some PyError.typeError⟩ := by
  decide

/-- C4: an inbound group-message envelope naming a group unknown to the
    client changes no state and triggers no rendering callback (the handler
    in fact raises `TypeError` at the `group in None` membership test,
    before reaching any mutation or rendering). -/
theorem c4_unknown_group_message_no_change (s : ClientState) (msg : Msg)
    (g : String)
    (ht : msg.type = some "message") (hto : msg.«to» = none)
    (_hgrp : msg.group = some g)
    (_hunk : (keysOf s.groups).contains g = false) :
    (handle_incoming_message s msg).state = s ∧
    (handle_incoming_message s msg).effects = [] ∧
    (handle_incoming_message s msg).error = some PyError.typeError := by
  have he : handle_incoming_message s msg = handleMessage s msg := by
    unfold handle_incoming_message
    rw [if_neg (by rw [ht]; simp), if_pos ht]
  rw [he]
  simp [handleMessage, hto, get_all_group_names]

/-- Witness for C4 at a concrete unknown-group message. -/
theorem c4_unknown_group_message_no_change_witness :
    (handle_incoming_message (initialState "alice") (groupMsg "x" "b" "d")).state
        = initialState "alice" ∧
    (handle_incoming_message (initialState "alice") (groupMsg "x" "b" "d")).effects
        = [] ∧
    (handle_incoming_message (initialState "alice") (groupMsg "x" "b" "d")).error
        = some PyError.typeError :=
  c4_unknown_group_message_no_change (initialState "alice") (groupMsg "x" "b" "d")
    "x" rfl rfl rfl (by decide)

/-- C5: a snapshot event replaces GroupSnapshot wholesale — after any
    snapshot the view equals exactly the carried mapping; after two
    snapshots it equals the second one; in particular S1 = {A:[x]} then
    S2 = {B:[y]} leaves exactly {B:{y}}. -/
theorem c5_snapshot_replaces_never_merges :
    (∀ (s : ClientState) (entries : List (String × List String)),
       (handle_incoming_message s (snapshotMsg entries)).state.groups
         = toGroups entries) ∧
    (∀ (s : ClientState) (e₁ e₂ : List (String × List String)),
       (handle_incoming_message (handle_incoming_message s (snapshotMsg e₁)).state
          (snapshotMsg e₂)).state.groups = toGroups e₂) ∧
    (handle_incoming_message
        (handle_incoming_message (initialState "u") (snapshotMsg [("A", ["x"])])).state
        (snapshotMsg [("B", ["y"])])).state.groups = [("B", ["y"])] := by
  have h1 : ∀ (s : ClientState) (entries : List (String × List String)),
      (handle_incoming_message s (snapshotMsg entries)).state.groups
        = toGroups entries := by
    intro s entries
    rw [handle_snapshotMsg]
    exact update_group_list_groups _ _
  exact ⟨h1, fun s e₁ e₂ => h1 _ e₂, by decide⟩

/-- C8 counterexample: a receive failure (the error raised by the blocking
    receive once `stop` has closed the socket) does NOT make the pump exit
    its loop — the blanket `except Exception` swallows it and the loop
    continues, still emitting later frames. -/
theorem c8_stop_does_not_exit_counterexample :
    (pumpIter RecvResult.recvError).2 = false ∧
    pumpRun [RecvResult.recvError, RecvResult.ok (eventMsg "x")]
      = [eventMsg "x"] := by
  decide

/-- C8 amended: a decode failure is recorded and the loop continues, and
    the receive failure caused by `stop` is caught by the same blanket
    handler, so the loop continues in every case — the pump never exits. -/
theorem c8_pump_always_continues :
    (∀ r : RecvResult, (pumpIter r).2 = false) ∧
    (∀ rs : List RecvResult,
       pumpRun (RecvResult.decodeError :: rs) = pumpRun rs) ∧
    (∀ rs : List RecvResult,
       pumpRun (RecvResult.recvError :: rs) = pumpRun rs) ∧
    (∀ (m : Msg) (rs : List RecvResult),
       pumpRun (RecvResult.ok m :: rs) = m :: pumpRun rs) := by
  refine ⟨fun r => ?_, fun rs => rfl, fun rs => rfl, fun m rs => rfl⟩
  cases r <;> rfl

/-- C10: `start_private_chat` with the local username as target returns
    immediately: no window, no effect, no session-table change. -/
theorem c10_self_chat_noop :
    ∀ s : ClientState, start_private_chat s s.username = (s, []) := by
  intro s
  unfold start_private_chat
  rw [if_pos rfl]

/-- C6 counterexample: a `Left` event whose actor ("alice") is not a member
    of the named group `g` (members: {"bob"}) is NOT a no-op: since the
    actor is the local identity and `g` is in JoinedSet, the group is
    removed from JoinedSet, and the member-list refresh then raises
    `AttributeError`. -/
theorem c6_left_nonmember_counterexample :
    (handle_incoming_message
        { username := "alice", groups := [("g", ["bob"])], joined_groups := ["g"],
          private_windows := [], tabs := ["g"], currentIndex := 0,
          member_list := [] }
        (eventMsg "alice left g.")).state.joined_groups = [] ∧
    ¬ ((handle_incoming_message
        { username := "alice", groups := [("g", ["bob"])], joined_groups := ["g"],
          private_windows := [], tabs := ["g"], currentIndex := 0,
          member_list := [] }
        (eventMsg "alice left g.")).state
      = { username := "alice", groups := [("g", ["bob"])], joined_groups := ["g"],
          private_windows := [], tabs := ["g"], currentIndex := 0,
          member_list := [] }) ∧
    (handle_incoming_message
        { username := "alice", groups := [("g", ["bob"])], joined_groups := ["g"],
          private_windows := [], tabs := ["g"], currentIndex := 0,
          member_list := [] }
        (eventMsg "alice left g.")).error = some PyError.attributeError := by
  decide

/-- C6 amended: (1) applying the same `Joined` event twice yields the same
    GroupSnapshot member sets and the same JoinedSet as applying it once;
    (2) applying a `Left` event naming a known group whose actor is not a
    member of that group leaves every member set unchanged, but when the
    actor is the local identity the group is still discarded from
    JoinedSet (and the member-list refresh may raise, see the
    counterexample). -/
theorem c6_lifecycle_idempotency :
    (∀ (s : ClientState) (data : String),
      strContains data "created" = false →
      strContains data "removed" = false →
      strContains data "joined" = true →
      ((handle_incoming_message (handle_incoming_message s (eventMsg data)).state
          (eventMsg data)).state.groups
        = (handle_incoming_message s (eventMsg data)).state.groups ∧
       (handle_incoming_message (handle_incoming_message s (eventMsg data)).state
          (eventMsg data)).state.joined_groups
        = (handle_incoming_message s (eventMsg data)).state.joined_groups)) ∧
    (∀ (s : ClientState) (data user group : String),
      strContains data "created" = false →
      strContains data "removed" = false →
      strContains data "joined" = false →
      strContains data "left" = true →
      (pyWords data).getD 0 "" = user →
      rstripDot ((pyWords data).getD 2 "") = group →
      3 ≤ (pyWords data).length →
      (keysOf s.groups).contains group = true →
      (s.groups.all fun p => !(p.1 == group) || !(p.2.contains user)) = true →
      ((handle_incoming_message s (eventMsg data)).state.groups = s.groups ∧
       (handle_incoming_message s (eventMsg data)).state.joined_groups
        = if user = s.username then pySetDiscard s.joined_groups group
          else s.joined_groups)) := by
  constructor
  · intro s data h1 h2 h3
    have hne : data ≠ "" := by
      intro h
      rw [h] at h3
      exact absurd h3 (by decide)
    have hjl : (strContains data "joined" || strContains data "left") = true := by
      rw [h3]
      simp
    rw [handle_eventMsg s data hne h1 h2 hjl]
    by_cases hlen : 3 ≤ (pyWords data).length
    · by_cases hk : (keysOf s.groups).contains (rstripDot ((pyWords data).getD 2 "")) = true
      · have e1 : (lifecycleStep s data).state =
            (memberListRefresh
              (joinApply s ((pyWords data).getD 0 "")
                (rstripDot ((pyWords data).getD 2 "")))
              (rstripDot ((pyWords data).getD 2 ""))).1 := by
          rw [lifecycleStep_state_known s data ((pyWords data).getD 0 "")
            (rstripDot ((pyWords data).getD 2 "")) rfl rfl hlen hk]
          rw [if_pos h3]
        have g1 : (lifecycleStep s data).state.groups =
            addMember s.groups (rstripDot ((pyWords data).getD 2 ""))
              ((pyWords data).getD 0 "") := by
          rw [e1, memberListRefresh_groups, joinApply_groups]
        have j1 : (lifecycleStep s data).state.joined_groups =
            (if ((pyWords data).getD 0 "") = s.username then
              pySetAdd s.joined_groups (rstripDot ((pyWords data).getD 2 ""))
             else s.joined_groups) := by
          rw [e1, memberListRefresh_joined, joinApply_joined]
        have un1 : (lifecycleStep s data).state.username = s.username := by
          rw [e1, memberListRefresh_username, joinApply_username]
        have hk1 : (keysOf (lifecycleStep s data).state.groups).contains
            (rstripDot ((pyWords data).getD 2 "")) = true := by
          rw [g1, keysOf_addMember]
          exact hk
        rw [handle_eventMsg (lifecycleStep s data).state data hne h1 h2 hjl]
        have e2 : (lifecycleStep (lifecycleStep s data).state data).state =
            (memberListRefresh
              (joinApply (lifecycleStep s data).state ((pyWords data).getD 0 "")
                (rstripDot ((pyWords data).getD 2 "")))
              (rstripDot ((pyWords data).getD 2 ""))).1 := by
          rw [lifecycleStep_state_known (lifecycleStep s data).state data
            ((pyWords data).getD 0 "") (rstripDot ((pyWords data).getD 2 ""))
            rfl rfl hlen hk1]
          rw [if_pos h3]
        constructor
        · rw [e2, memberListRefresh_groups, joinApply_groups, g1,
            addMember_addMember]
        · rw [e2, memberListRefresh_joined, joinApply_joined, un1, j1]
          by_cases hu : ((pyWords data).getD 0 "") = s.username
          · simp only [if_pos hu]
            exact pySetAdd_idem _ _
          · simp only [if_neg hu]
      · have hkf : (keysOf s.groups).contains
            (rstripDot ((pyWords data).getD 2 "")) = false := by
          simpa using hk
        rw [lifecycleStep_unknown s data _ rfl hlen hkf]
        dsimp only
        rw [handle_eventMsg s data hne h1 h2 hjl]
        rw [lifecycleStep_unknown s data _ rfl hlen hkf]
        exact ⟨rfl, rfl⟩
    · rw [lifecycleStep_short s data hlen]
      dsimp only
      rw [handle_eventMsg s data hne h1 h2 hjl]
      rw [lifecycleStep_short s data hlen]
      exact ⟨rfl, rfl⟩
  · intro s data user group h1 h2 h3 h4 hu hg hlen hk hnm
    have hne : data ≠ "" := by
      intro h
      rw [h] at h4
      exact absurd h4 (by decide)
    have hjl : (strContains data "joined" || strContains data "left") = true := by
      rw [h4]
      simp
    rw [handle_eventMsg s data hne h1 h2 hjl]
    rw [lifecycleStep_state_known s data user group hu hg hlen hk]
    rw [if_neg (by rw [h3]; simp)]
    constructor
    · rw [memberListRefresh_groups, leftApply_groups,
        removeMember_eq_self s.groups group user hnm]
    · rw [memberListRefresh_joined, leftApply_joined]

/-- Witness for C6: the join part at the concrete event "bob joined q."
    from the fresh "alice" state, and the left part at "carol left q."
    against a state where `q` exists with members {"bob"}. -/
theorem c6_lifecycle_idempotency_witness :
    ((handle_incoming_message (handle_incoming_message (initialState "alice")
        (eventMsg "bob joined q.")).state (eventMsg "bob joined q.")).state.groups
      = (handle_incoming_message (initialState "alice")
          (eventMsg "bob joined q.")).state.groups) ∧
    ((handle_incoming_message
        { username := "alice", groups := [("q", ["bob"])], joined_groups := [],
          private_windows := [], tabs := [], currentIndex := -1,
          member_list := [] }
        (eventMsg "carol left q.")).state.groups = [("q", ["bob"])]) :=
  ⟨(c6_lifecycle_idempotency.1 (initialState "alice") "bob joined q."
      (by decide) (by decide) (by decide)).1,
   (c6_lifecycle_idempotency.2
      { username := "alice", groups := [("q", ["bob"])], joined_groups := [],
        private_windows := [], tabs := [], currentIndex := -1,
        member_list := [] }
      "carol left q." "carol" "q"
      (by decide) (by decide) (by decide) (by decide) (by decide) (by decide)
      (by decide) (by decide) (by decide)).1⟩

/-- C7: the private-session table keeps at most one entry per peer — both
    the inbound private-message path and `start_private_chat` preserve
    key-uniqueness of `private_windows` — and the concrete scenario of two
    inbound messages from "bob" followed by one outbound send lands in
    exactly one window holding the three log lines in arrival order. -/
theorem c7_private_session_singleton :
    (∀ (s : ClientState) (msg : Msg), (keysOf s.private_windows).Nodup →
       (keysOf (handle_incoming_message s msg).state.private_windows).Nodup) ∧
    (∀ (s : ClientState) (t : String), (keysOf s.private_windows).Nodup →
       (keysOf (start_private_chat s t).1.private_windows).Nodup) ∧
    ((sendViaWindow
        (handle_incoming_message
          (handle_incoming_message (initialState "alice")
            (privateMsg "alice" "bob" "m1")).state
          (privateMsg "alice" "bob" "m2")).state
        "bob" "m3").1.private_windows
      = [("bob", ⟨"alice", "bob", ["bob: m1", "bob: m2", "You: m3"]⟩)]) :=
  ⟨fun s msg h => handle_nodup s msg h,
   fun s t h => start_private_chat_nodup s t h,
   by decide⟩

/-- Witness for C7 at concrete inputs. -/
theorem c7_private_session_singleton_witness :
    (keysOf (handle_incoming_message (initialState "alice")
        (privateMsg "alice" "bob" "m1")).state.private_windows).Nodup ∧
    (keysOf (start_private_chat (initialState "alice")
        "carol").1.private_windows).Nodup :=
  ⟨c7_private_session_singleton.1 (initialState "alice")
     (privateMsg "alice" "bob" "m1") (by decide),
   c7_private_session_singleton.2.1 (initialState "alice") "carol" (by decide)⟩

/-- `e` is a leave-command frame sent by `u`. -/
def isLeaveFrom (u : String) : Effect → Bool
  | .sendFrame m => m.type == "command" && m.action == some "leave" && m.«from» == u
  | _ => false

/-- C9: `closeEvent` emits exactly one leave command per joined group, and
    all of them precede the release of the channel resources
    (`receiver.stop()`, `pub.close()`, `context.term()`). -/
theorem c9_shutdown_leaves_before_close (s : ClientState)
    (h : s.joined_groups.Nodup) :
    ∃ pre : List Effect,
      closeEvent s = pre ++ [Effect.stopReceiver, Effect.closePubSocket,
                            Effect.termZmqContext, Effect.acceptClose] ∧
      (∀ g : String,
        pre.count (send_command s.username "leave" g)
          = if g ∈ s.joined_groups then 1 else 0) ∧
      pre.all (isLeaveFrom s.username) = true := by
  refine ⟨s.joined_groups.map (fun g => send_command s.username "leave" g),
    rfl, ?_, ?_⟩
  · intro g
    have hinj : Function.Injective
        (fun g => send_command s.username "leave" g) := by
      intro a b hab
      simpa [send_command] using hab
    rw [List.count_map_of_injective _ _ hinj]
    by_cases hm : g ∈ s.joined_groups
    · rw [if_pos hm, List.count_eq_one_of_mem h hm]
    · rw [if_neg hm, List.count_eq_zero_of_not_mem hm]
  · simp [List.all_eq_true, isLeaveFrom, send_command]

/-- Witness for C9 with two joined groups. -/
theorem c9_shutdown_leaves_before_close_witness :
    ∃ pre : List Effect,
      closeEvent { username := "alice", groups := [("a", ["alice"]), ("b", ["alice"])],
                   joined_groups := ["a", "b"], private_windows := [],
                   tabs := ["a", "b"], currentIndex := 0, member_list := [] }
        = pre ++ [Effect.stopReceiver, Effect.closePubSocket,
                  Effect.termZmqContext, Effect.acceptClose] ∧
      (∀ g : String,
        pre.count (send_command "alice" "leave" g)
          = if g ∈ (["a", "b"] : List String) then 1 else 0) ∧
      pre.all (isLeaveFrom "alice") = true :=
  c9_shutdown_leaves_before_close
    { username := "alice", groups := [("a", ["alice"]), ("b", ["alice"])],
      joined_groups := ["a", "b"], private_windows := [],
      tabs := ["a", "b"], currentIndex := 0, member_list := [] }
    (by decide)

end ChatZmq
